import Mathlib

/-!
Verification of the MeshChile FAQ agent's message-intake and session-correlation
core against its specification.

The definitions below are a shallow embedding of the Python source:

  * `app/models/session.py`   (`RedisSessionManager`)
  * `app/core/agent.py`       (`BotAgent.process_message`)
  * `app/core/openwebui_client.py` (`OpenWebUIClient.chat_completion`)
  * `app/adapters/telegram.py`, `app/adapters/discord.py`,
    `app/adapters/whatsapp_api.py`

Python strings are modelled as `String` / `List Char`; Python `dict` payloads
become structures whose optional keys are `Option` fields; Python truthiness
tests (`if data:`, `if message_thread_id:`) are embedded explicitly.  The
regular expressions used for mention detection and cleanup are embedded as
character-list scanners over ASCII (`re`'s Unicode word classes are modelled by
their ASCII part, which covers all patterns the adapters configure).
-/

/-! ## Python string helpers -/

/-- Python whitespace class (`str.split`, `str.strip`, and `re`'s `\s`),
restricted to its ASCII part. -/
def isPySpace (c : Char) : Bool :=
  c = ' ' || c = '\t' || c = '\n' || c = '\x0d' || c = '\x0b' || c = '\x0c'

/-- Python `str.strip()` on a list of characters. -/
def pyStrip (l : List Char) : List Char :=
  ((l.dropWhile isPySpace).reverse.dropWhile isPySpace).reverse

/-- Python `str.strip()` on a `String`. -/
def pyStripS (s : String) : String :=
  ⟨pyStrip s.toList⟩

/-- Python `str.lower()` (ASCII part) on a list of characters. -/
def toLowerList (s : String) : List Char :=
  s.toList.map Char.toLower

/-- Python `str.lower()` (ASCII part) on a `String`. -/
def lowerS (s : String) : String :=
  ⟨toLowerList s⟩

/-- Python `l[-n:]` on a list, for a non-negative `n` (note that `l[-0:]` is
the whole list, not the empty one). -/
def pySliceLast (l : List α) (n : Nat) : List α :=
  if n = 0 then l else l.drop (l.length - n)

/-- `" ".join(s.split())`: collapse runs of whitespace to single spaces and
drop leading/trailing whitespace (used by the Telegram mention cleanup). -/
def collapseWs (l : List Char) : List Char :=
  (l.foldl
    (fun (acc : List Char × Bool) c =>
      if isPySpace c then (acc.1, true)
      else (acc.1 ++ (if acc.2 && !(acc.1.isEmpty) then [' '] else []) ++ [c], false))
    ([], false)).1

/-- `re.sub(r'\n\x7b4,\x7d', '\n\n\n', text)`: runs of four or more newlines
are replaced by exactly three.  `k` counts the pending newline run. -/
def collapseNlAux : List Char → Nat → List Char
  | [], k => List.replicate (min k 3) '\n'
  | c :: cs, k =>
    if c = '\n' then collapseNlAux cs (k + 1)
    else List.replicate (min k 3) '\n' ++ c :: collapseNlAux cs 0

def collapseNl (l : List Char) : List Char :=
  collapseNlAux l 0

/-- The control characters removed by the adapters' `_sanitize_message`
(`[\x00-\x08\x0b\x0c\x0e-\x1f\x7f-\x9f]`). -/
def isCtlChar (c : Char) : Bool :=
  (c.toNat ≤ 0x08) || c.toNat = 0x0b || c.toNat = 0x0c ||
  (0x0e ≤ c.toNat && c.toNat ≤ 0x1f) || (0x7f ≤ c.toNat && c.toNat ≤ 0x9f)

def stripCtl (l : List Char) : List Char :=
  l.filter (fun c => !(isCtlChar c))

/-- Python `==` on two optional ints (`None == None` is `True`). -/
def pyEqOptInt : Option Int → Option Int → Bool
  | some a, some b => a = b
  | none, none => true
  | _, _ => false

/-- Python `==` on two optional strings (`None == None` is `True`). -/
def pyEqOptStr : Option String → Option String → Bool
  | some a, some b => a = b
  | none, none => true
  | _, _ => false

/-! ## Regex scanners

The adapters only use literal patterns, optionally case-insensitive, with
`^` anchors, a trailing `\b` word boundary, or a trailing `[,:\s]` class.
They are embedded as explicit scanners over `List Char`. -/

/-- Case-sensitively match `pat` as a prefix of `s`; on success return the
remainder of `s`. -/
def matchLit : List Char → List Char → Option (List Char)
  | [], s => some s
  | _ :: _, [] => none
  | p :: ps, c :: cs => if p = c then matchLit ps cs else none

/-- Case-insensitively (ASCII) match `pat` as a prefix of `s`; on success
return the remainder of `s`. -/
def matchCI : List Char → List Char → Option (List Char)
  | [], s => some s
  | _ :: _, [] => none
  | p :: ps, c :: cs => if p.toLower = c.toLower then matchCI ps cs else none

theorem matchCI_length_le :
    ∀ (ps cs rest : List Char), matchCI ps cs = some rest → rest.length ≤ cs.length := by
  intro ps
  induction ps with
  | nil =>
    intro cs rest h
    simp only [matchCI] at h
    cases h
    exact Nat.le_refl _
  | cons p ps ih =>
    intro cs rest h
    cases cs with
    | nil => simp [matchCI] at h
    | cons c cs' =>
      simp only [matchCI] at h
      by_cases hc : p.toLower = c.toLower
      · rw [if_pos hc] at h
        exact Nat.le_succ_of_le (ih cs' rest h)
      · rw [if_neg hc] at h
        cases h

/-- `re`'s `\w` word class, ASCII part. -/
def isWordChar (c : Char) : Bool :=
  c.isAlpha || c.isDigit || c = '_'

/-- A `\b` word boundary holds right before `rest` (for patterns that end in a
word character). -/
def boundaryAfter : List Char → Bool
  | [] => true
  | c :: _ => !(isWordChar c)

/-- `re.search(pat + r'\b', s)` for a literal `pat` ending in a word
character, on already-lowercased text. -/
def searchPatB (pat : List Char) : List Char → Bool
  | [] =>
    (match matchLit pat [] with
     | some rest => boundaryAfter rest
     | none => false)
  | c :: cs =>
    (match matchLit pat (c :: cs) with
     | some rest => boundaryAfter rest
     | none => false) || searchPatB pat cs

/-- `re.search('^' + pat + cls, s)`: anchored literal followed by one
character of a class, on already-lowercased text. -/
def matchStartThen (pat : List Char) (cls : Char → Bool) (s : List Char) : Bool :=
  match matchLit pat s with
  | some (c :: _) => cls c
  | _ => false

/-- `re.search('^' + pat + r'\b', s)` on already-lowercased text. -/
def matchStartB (pat : List Char) (s : List Char) : Bool :=
  match matchLit pat s with
  | some rest => boundaryAfter rest
  | none => false

/-- The `[,:\s]` character class used by the trigger patterns. -/
def sepClass (c : Char) : Bool :=
  c = ',' || c = ':' || isPySpace c

/-- `pat.lower() in text.lower()`: case-insensitive substring test
(Python's `in` on `str`). -/
def containsCI (pat : List Char) : List Char → Bool
  | [] => (matchCI pat []).isSome
  | c :: cs => (matchCI pat (c :: cs)).isSome || containsCI pat cs

/-- Case-sensitive substring test (Python's `in` on `str`). -/
def containsLit (pat : List Char) : List Char → Bool
  | [] => (matchLit pat []).isSome
  | c :: cs => (matchLit pat (c :: cs)).isSome || containsLit pat cs

/-- `re.sub(re.escape(pat), '', s, flags=re.IGNORECASE)`: delete every
(leftmost, non-overlapping) case-insensitive occurrence of the non-empty
literal `pat`. -/
def removeAllCI (pat : List Char) (s : List Char) : List Char :=
  match s with
  | [] => []
  | c :: cs =>
    match pat with
    | [] => c :: cs
    | p :: ps =>
      if p.toLower = c.toLower then
        match h : matchCI ps cs with
        | some rest => removeAllCI pat rest
        | none => c :: removeAllCI pat cs
      else c :: removeAllCI pat cs
termination_by s.length
decreasing_by
  · have := matchCI_length_le _ _ _ h
    simp only [List.length_cons]
    omega
  · simp only [List.length_cons]
    omega
  · simp only [List.length_cons]
    omega

/-- `re.sub(pat + r'\b', '', s, flags=re.IGNORECASE)`: delete every
case-insensitive occurrence of the literal `pat` that is followed by a word
boundary. -/
def removeAllCIB (pat : List Char) (s : List Char) : List Char :=
  match s with
  | [] => []
  | c :: cs =>
    match pat with
    | [] => c :: cs
    | p :: ps =>
      if p.toLower = c.toLower then
        match h : matchCI ps cs with
        | some rest =>
          if boundaryAfter rest then removeAllCIB pat rest
          else c :: removeAllCIB pat cs
        | none => c :: removeAllCIB pat cs
      else c :: removeAllCIB pat cs
termination_by s.length
decreasing_by
  · have := matchCI_length_le _ _ _ h
    simp only [List.length_cons]
    omega
  · simp only [List.length_cons]
    omega
  · simp only [List.length_cons]
    omega
  · simp only [List.length_cons]
    omega

/-- `re.sub('^' + pat + cls*, '', s, flags=re.IGNORECASE)` (one replacement,
anchored): drop the literal `pat` and the following run of `cls` characters;
when `atLeastOne` is set the run must be non-empty (`+` instead of `*`). -/
def stripStartCI (pat : List Char) (cls : Char → Bool) (atLeastOne : Bool)
    (s : List Char) : List Char :=
  match matchCI pat s with
  | some rest =>
    if atLeastOne && (rest.takeWhile cls).isEmpty then s
    else rest.dropWhile cls
  | none => s

theorem length_dropWhile_le' (p : Char → Bool) (l : List Char) :
    (l.dropWhile p).length ≤ l.length := by
  induction l with
  | nil => simp [List.dropWhile]
  | cons c cs ih =>
    simp only [List.dropWhile]
    cases hp : p c
    · exact Nat.le_refl _
    · simp only [List.length_cons]
      exact Nat.le_succ_of_le ih

/-- Skip an optional leading `'!'` (the `!?` in `r'<@!?\d+>'`). -/
def bangTail (rest : List Char) : List Char :=
  if rest.head? = some '!' then rest.tail else rest

theorem bangTail_length_le (rest : List Char) : (bangTail rest).length ≤ rest.length := by
  unfold bangTail
  split
  · cases rest <;> simp
  · exact Nat.le_refl _

/-- A Discord user-mention tag `<@123>` or `<@!123>` at the head of the list;
on success return what follows the tag (used for `re.sub(r'<@!?\d+>', '', s)`). -/
def dcMentionTag : List Char → Option (List Char)
  | '<' :: '@' :: rest =>
    if ((bangTail rest).takeWhile Char.isDigit).isEmpty then none
    else if ((bangTail rest).dropWhile Char.isDigit).head? = some '>' then
      some (((bangTail rest).dropWhile Char.isDigit).tail)
    else none
  | _ => none

theorem dcMentionTag_length_lt (l tail : List Char) (h : dcMentionTag l = some tail) :
    tail.length < l.length := by
  rw [dcMentionTag.eq_def] at h
  split at h
  · rename_i rest
    have h1 := bangTail_length_le rest
    have h2 := length_dropWhile_le' Char.isDigit (bangTail rest)
    split at h
    · cases h
    · split at h
      · cases h
        rename_i hhead
        have hne : ((bangTail rest).dropWhile Char.isDigit).length ≠ 0 := by
          rcases hnil : (bangTail rest).dropWhile Char.isDigit with _ | ⟨x, xs⟩
          · rw [hnil] at hhead
            cases hhead
          · simp
        simp only [List.length_tail, List.length_cons]
        omega
      · cases h
  · cases h

/-- `re.sub(r'<@!?\d+>', '', s)`: delete every Discord mention tag. -/
def dcStripMentionTags (l : List Char) : List Char :=
  match l with
  | [] => []
  | c :: cs =>
    match h : dcMentionTag (c :: cs) with
    | some rest => dcStripMentionTags rest
    | none => c :: dcStripMentionTags cs
termination_by l.length
decreasing_by
  · exact dcMentionTag_length_lt _ _ h
  · simp only [List.length_cons]
    omega

/-! ## Conversation store (`app/models/session.py`, `RedisSessionManager`)

The Redis keyspace is modelled as an association list from keys to stored
entries.  The JSON blob stored under a key is modelled by the outcomes the
code distinguishes when reading it back: the empty string (falsy under
`if data:`), a string decoding to a JSON array of messages, a string decoding
to some other JSON value, and a string that is not decodable as JSON
(`json.JSONDecodeError`). -/

/-- One stored conversation turn (the dict appended by `BotAgent` /
`add_message`); optional keys are `Option` fields. -/
structure StoredMsg where
  role : String
  content : String
  platform : Option String := none
  userId : Option String := none
  timestamp : Option String := none
deriving DecidableEq, Repr

/-- The decode behaviour of the raw string stored under a session key. -/
inductive RawValue where
  /-- the empty string: falsy under `if data:`, returned as missing data -/
  | emptyStr : RawValue
  /-- a non-empty string that decodes to a JSON array of messages -/
  | jsonList (msgs : List StoredMsg) : RawValue
  /-- a non-empty string that decodes to a JSON value that is not a list -/
  | jsonOther : RawValue
  /-- a non-empty string that raises `json.JSONDecodeError` -/
  | corrupt : RawValue
deriving DecidableEq, Repr

/-- A stored record: the value and its remaining TTL as set by `setex`. -/
structure StoredEntry where
  value : RawValue
  ttl : Nat
deriving DecidableEq, Repr

/-- The Redis keyspace (restricted to the `bot_session:*` keys). -/
def Store : Type := List (String × StoredEntry)

instance : DecidableEq Store := by
  unfold Store
  infer_instance

instance : Repr Store := by
  unfold Store
  infer_instance

def Store.get (s : Store) (k : String) : Option StoredEntry :=
  (List.find? (fun p => p.1 = k) s).map (fun p => p.2)

def Store.set (s : Store) (k : String) (e : StoredEntry) : Store :=
  (k, e) :: List.filter (fun p => p.1 ≠ k) s

def Store.del (s : Store) (k : String) : Store :=
  List.filter (fun p => p.1 ≠ k) s

/-- `RedisSessionManager._get_session_key`. -/
def sessionKey (sessionId : String) : String :=
  "bot_session:" ++ sessionId

/-- The values of `Settings.SESSION_TTL` and `Settings.MAX_SESSION_MESSAGES`
(`app/core/config.py`), with their defaults. -/
structure SessionConfig where
  sessionTTL : Nat := 3600
  maxMessages : Nat := 20
deriving DecidableEq, Repr

/-- `RedisSessionManager.clear_session`: delete the key, report whether it
existed (`delete` returns the number of removed keys). -/
def clearSession (s : Store) (sessionId : String) : Store × Bool :=
  (Store.del s (sessionKey sessionId), (Store.get s (sessionKey sessionId)).isSome)

/-- The result of `get_context`: the context list returned to the caller and
the store as left behind (reading a corrupt record deletes it). -/
structure ReadResult where
  context : List StoredMsg
  store : Store
deriving DecidableEq, Repr

/-- `RedisSessionManager.get_context`.  A missing key or an empty-string
value returns `[]`; a decodable non-list value returns `[]`; a JSON list is
returned as is; a `JSONDecodeError` triggers `clear_session` and returns
`[]`. -/
def getContext (s : Store) (sessionId : String) : ReadResult :=
  match Store.get s (sessionKey sessionId) with
  | none => ⟨[], s⟩
  | some e =>
    match e.value with
    | RawValue.emptyStr => ⟨[], s⟩
    | RawValue.jsonList l => ⟨l, s⟩
    | RawValue.jsonOther => ⟨[], s⟩
    | RawValue.corrupt => ⟨[], (clearSession s sessionId).1⟩

/-- `message["timestamp"] = datetime.now().isoformat()` when the key is
missing (`now` stands for the iso-formatted wall clock). -/
def withTimestamp (m : StoredMsg) (now : String) : StoredMsg :=
  if m.timestamp = none then { m with timestamp := some now } else m

/-- The trim step of `add_message`:
`if len(context) > max: context = context[-max:]`. -/
def pyTrim (maxMessages : Nat) (l : List StoredMsg) : List StoredMsg :=
  if l.length > maxMessages then pySliceLast l maxMessages else l

/-- `RedisSessionManager.add_message`: read the current context, append the
(timestamped) message, trim to the most recent `maxMessages`, and `setex` the
result with a fresh TTL. -/
def addMessage (cfg : SessionConfig) (s : Store) (sessionId : String)
    (msg : StoredMsg) (now : String) : Store :=
  let msg := withTimestamp msg now
  let r := getContext s sessionId
  let context := pyTrim cfg.maxMessages (r.context ++ [msg])
  Store.set r.store (sessionKey sessionId) ⟨RawValue.jsonList context, cfg.sessionTTL⟩

/-! ## Completion backend (`app/core/openwebui_client.py`) -/

/-- The observable outcome of the HTTP POST performed by `chat_completion`:
a response (status, the extractable `choices[0].message.content` if the JSON
body has one, and the raw body text), a timeout, or a connection error. -/
inductive HttpResult where
  | response (status : Nat) (content : Option String) (text : String)
  | timeout
  | connectError
deriving DecidableEq, Repr

/-- `OpenWebUIClient.chat_completion`.  Status 200 with an extractable
content returns it; any other outcome raises, which is modelled as
`Except.error` carrying the exception text. -/
def chatCompletion (timeoutCfg : Nat) (baseUrl : String) (r : HttpResult) :
    Except String String :=
  match r with
  | HttpResult.response status content text =>
    if status = 200 then
      match content with
      | some c => Except.ok c
      | none => Except.error "OpenWebUI client error: malformed response"
    else
      Except.error ("OpenWebUI client error: OpenWebUI error " ++ toString status ++ ": " ++
        (if text = "" then "Unknown error" else text))
  | HttpResult.timeout =>
    Except.error ("Timeout connecting to OpenWebUI after " ++ toString timeoutCfg ++ "s")
  | HttpResult.connectError =>
    Except.error ("Cannot connect to OpenWebUI at " ++ baseUrl)

def isOkE (e : Except String String) : Bool :=
  match e with
  | Except.ok _ => true
  | Except.error _ => false

/-! ## Agent (`app/core/agent.py`, `BotAgent.process_message`) -/

/-- Step 2 of `process_message`: system prompt, then the last 10 stored
turns restricted to user/assistant roles, then the new user message, as
(role, content) pairs. -/
def buildMessages (sysPrompt : String) (context : List StoredMsg)
    (userMsg : String) : List (String × String) :=
  let recent := if context.length > 10 then pySliceLast context 10 else context
  ("system", sysPrompt) ::
    ((recent.filter (fun m => m.role = "user" || m.role = "assistant")).map
      (fun m => (m.role, m.content)) ++ [("user", userMsg)])

/-- The fixed apology returned by `process_message` when anything raises
(in particular a failed `chat_completion`). -/
def agentApology : String :=
  "Lo siento, hubo un problema procesando tu mensaje. Por favor inténtalo de nuevo en unos momentos."

structure AgentResult where
  response : String
  store : Store
deriving DecidableEq, Repr

/-- `BotAgent.process_message`.  The completion backend is passed as a
function from the built message list to the outcome of `chat_completion`
(`Except.error` = exception raised).  On success the user turn and then the
assistant turn are appended; on failure nothing is appended and the fixed
apology is returned. -/
def processMessage (cfg : SessionConfig) (sysPrompt : String) (s : Store)
    (message sessionId platform : String) (userId : Option String)
    (backend : List (String × String) → Except String String)
    (now : String) : AgentResult :=
  let r := getContext s sessionId
  let msgs := buildMessages sysPrompt r.context message
  match backend msgs with
  | Except.error _ => ⟨agentApology, r.store⟩
  | Except.ok response =>
    let s1 := addMessage cfg r.store sessionId
      ⟨"user", message, some platform, userId, some now⟩ now
    let s2 := addMessage cfg s1 sessionId
      ⟨"assistant", response, some platform, none, some now⟩ now
    ⟨response, s2⟩

/-! ## Telegram adapter (`app/adapters/telegram.py`) -/

/-- The bot identity fetched by `_get_bot_info` (`username` defaults to `""`,
`id` may be unset). -/
structure TgBotInfo where
  username : String
  botId : Option Int
deriving DecidableEq, Repr

/-- One Telegram message entity (`type`, `offset`, `length`). -/
structure TgEntity where
  entityType : String
  offset : Nat
  length : Nat
deriving DecidableEq, Repr

/-- The `from` of a replied-to message (`reply_to_message.from`, with
Python's `.get` defaults: `id` may be `None`, `username` defaults to `""`). -/
structure TgReplyFrom where
  id : Option Int
  username : String
deriving DecidableEq, Repr

/-- The fields of a Telegram `message` dict that `_process_message`
extracts.  `replyFrom = some _` models a truthy `reply_to_message`. -/
structure TgMessage where
  chatId : Option Int
  chatType : String
  chatTitle : String
  threadId : Option Int
  fromId : Option Int
  fromFirstName : Option String
  text : String
  entities : List TgEntity
  replyFrom : Option TgReplyFrom
deriving DecidableEq, Repr

/-- `TelegramAdapter._is_bot_mentioned`: reply to the bot, an `@username`
substring (case-insensitive), or a `mention` entity equal to `@username`. -/
def tgIsBotMentioned (bot : TgBotInfo) (text : String) (entities : List TgEntity)
    (replyFrom : Option TgReplyFrom) : Bool :=
  if text = "" || bot.username = "" then false
  else
    let mention := "@" ++ bot.username
    let replyHit :=
      match replyFrom with
      | some rf => pyEqOptInt rf.id bot.botId || rf.username = bot.username
      | none => false
    let substrHit := containsLit (toLowerList mention) (toLowerList text)
    let entityHit := entities.any (fun e =>
      e.entityType = "mention" &&
        ((text.toList.drop e.offset).take e.length).map Char.toLower
          = toLowerList mention)
    replyHit || substrHit || entityHit

/-- `TelegramAdapter._clean_mention_from_text`: delete every
case-insensitive `@username`, strip, and collapse whitespace runs
(`" ".join(cleaned.split())`). -/
def tgCleanMention (bot : TgBotInfo) (text : String) : String :=
  if bot.username = "" || text = "" then text
  else
    let cleaned := pyStrip (removeAllCI ('@' :: bot.username.toList) text.toList)
    ⟨collapseWs cleaned⟩

/-- `TelegramAdapter._sanitize_message`: truncate over-long text, remove
control characters, collapse runs of four or more newlines. -/
def tgSanitize (text : String) : String :=
  if text = "" then "Mensaje vacío"
  else
    let text := if text.length > 4000 then
      ⟨text.toList.take 3950⟩ ++ "\n\n... (mensaje truncado por longitud)" else text
    let text : String := ⟨stripCtl text.toList⟩
    ⟨collapseNl text.toList⟩

/-- `TelegramAdapter._get_session_id`.  `if message_thread_id:` is Python
truthiness: a thread id of `0` counts as absent. -/
def tgGetSessionId (chatId userId : Int) (chatType : String)
    (messageThreadId : Option Int) : String :=
  if chatType = "private" then
    "telegram_private_" ++ toString chatId ++ "_" ++ toString userId
  else
    match messageThreadId with
    | some t =>
      if t = 0 then "telegram_group_" ++ toString chatId
      else "telegram_group_" ++ toString chatId ++ "_thread_" ++ toString t
    | none => "telegram_group_" ++ toString chatId

/-- What one dispatched Telegram message resolves to before the agent is
consulted. -/
inductive TgAction where
  | dropped : TgAction
  | send (chatId : Int) (text : String) (threadId : Option Int) : TgAction
  | agent (chatId userId : Int) (userName : String) (text : String)
      (chatType : String) (threadId : Option Int) : TgAction
deriving DecidableEq, Repr

def tgGroupWelcome (userName botUsername : String) : String :=
  "¡Hola " ++ userName ++ "! 👋\n\n🔗 Soy el bot FAQ de **MeshChile Meshtastic**.\n\n📱 **En grupos**:\n• Mencioname: @" ++
    botUsername ++ " tu pregunta\n• O responde a mis mensajes\n\n💬 **Chat privado**: Escríbeme directo\n\n🤖 Pregúntame sobre configuración, integraciones, cobertura, etc."

/-- `TelegramAdapter._handle_group_message` (after the debug/repair block,
which is a no-op when the handler is called with the message's own
fields). -/
def tgHandleGroup (bot : TgBotInfo) (m : TgMessage) (chatId userId : Int)
    (userName : String) : TgAction :=
  if !(tgIsBotMentioned bot m.text m.entities m.replyFrom) then TgAction.dropped
  else
    let cleanText := pyStripS (tgCleanMention bot m.text)
    if lowerS cleanText ∈ (["/start", "start", "hola", "ayuda", "help"] : List String) then
      TgAction.send chatId (tgGroupWelcome userName bot.username) m.threadId
    else if cleanText = "" then
      TgAction.send chatId (userName ++ ", ¿en qué puedo ayudarte con Meshtastic? 🔗") m.threadId
    else
      TgAction.agent chatId userId userName cleanText "group" m.threadId

/-- `TelegramAdapter._handle_private_message`: every private message goes
straight to the agent with the raw text. -/
def tgHandlePrivate (m : TgMessage) (chatId userId : Int) (userName : String) : TgAction :=
  TgAction.agent chatId userId userName m.text "private" none

/-- `TelegramAdapter._process_message`: extract fields (with Python
truthiness on `chat_id` / `user_id`) and dispatch on the chat type. -/
def tgProcessAction (bot : TgBotInfo) (m : TgMessage) : TgAction :=
  match m.chatId, m.fromId with
  | some chatId, some userId =>
    if chatId = 0 || userId = 0 then TgAction.dropped
    else
      let userName := m.fromFirstName.getD "Usuario"
      if m.chatType = "private" then tgHandlePrivate m chatId userId userName
      else if m.chatType = "group" || m.chatType = "supergroup" then
        tgHandleGroup bot m chatId userId userName
      else TgAction.dropped
  | _, _ => TgAction.dropped

/-- The outcome of processing one Telegram message end to end: the store as
left behind, the messages sent (chat id, text, thread id), and whether the
agent (and with it the conversation store and the backend) was invoked. -/
structure TgRunOut where
  store : Store
  sends : List (Int × String × Option Int)
  agentCalled : Bool
deriving DecidableEq, Repr

/-- One Telegram inbound event, end to end
(`_process_message` → `_process_with_agent` → `BotAgent.process_message`). -/
def tgRun (cfg : SessionConfig) (sysPrompt : String) (bot : TgBotInfo)
    (s : Store) (m : TgMessage)
    (backend : List (String × String) → Except String String)
    (now : String) : TgRunOut :=
  match tgProcessAction bot m with
  | TgAction.dropped => ⟨s, [], false⟩
  | TgAction.send chatId text threadId => ⟨s, [(chatId, text, threadId)], false⟩
  | TgAction.agent chatId userId userName text chatType threadId =>
    let sessionId := tgGetSessionId chatId userId chatType threadId
    let r := processMessage cfg sysPrompt s text sessionId
      ("telegram_" ++ chatType) (some (toString userId)) backend now
    let response := if chatType = "group" then userName ++ ", " ++ r.response else r.response
    let response := tgSanitize response
    ⟨r.store, [(chatId, response, threadId)], true⟩

/-! ## Discord adapter (`app/adapters/discord.py`) -/

/-- The adapter's configuration and connected-bot identity
(`DISCORD_GUILD_ID`, `DISCORD_CHANNEL_ID`, `bot_user_id`, `bot.user.name`). -/
structure DcConfig where
  guildId : Option Int
  channelId : Option Int
  botUserId : Option Int
  botName : Option String
deriving DecidableEq, Repr

/-- The fields of a `discord.Message` that the adapter reads.
`refAuthorId` is `message.reference.resolved.author.id` when the reference
resolves, else `none`; `refContent` its content. -/
structure DcMessage where
  authorId : Int
  authorDisplayName : String
  authorName : String
  content : String
  isDM : Bool
  guildId : Option Int
  channelId : Int
  mentionsBot : Bool
  refAuthorId : Option Int
  refContent : String
deriving DecidableEq, Repr

/-- `message.author.display_name or message.author.name`. -/
def dcAuthorName (m : DcMessage) : String :=
  if m.authorDisplayName ≠ "" then m.authorDisplayName else m.authorName

/-- `DiscordAdapter._is_target_channel`. -/
def dcIsTargetChannel (cfg : DcConfig) (m : DcMessage) : Bool :=
  if m.isDM then true
  else
    match cfg.guildId with
    | none => true
    | some g =>
      if ((match m.guildId with
          | some mg => mg ≠ g
          | none => false : Bool)) then false
      else
        match cfg.channelId with
        | none => true
        | some c => m.channelId = c

/-- `DiscordAdapter._is_bot_mentioned`: a native mention, or one of the
configured textual trigger patterns on the lowered, stripped content. -/
def dcIsBotMentioned (cfg : DcConfig) (m : DcMessage) : Bool :=
  if m.mentionsBot then true
  else
    let cl := pyStrip (toLowerList m.content)
    searchPatB "@bot".toList cl ||
    searchPatB "@asistente".toList cl ||
    searchPatB "@meshchile".toList cl ||
    (match cfg.botName with
     | some n => searchPatB ('@' :: toLowerList n) cl
     | none => searchPatB "@bot".toList cl) ||
    matchStartThen "bot".toList sepClass cl ||
    matchStartThen "asistente".toList sepClass cl ||
    matchStartB "hey bot".toList cl ||
    matchStartB "hola bot".toList cl

/-- `DiscordAdapter._is_reply_to_bot`: the referenced message's author is the
bot; returns the flag and the first 100 characters of the referenced
content. -/
def dcIsReplyToBot (cfg : DcConfig) (m : DcMessage) : Bool × String :=
  match m.refAuthorId with
  | some a =>
    if ((match cfg.botUserId with
        | some b => a = b
        | none => false : Bool)) then (true, ⟨m.refContent.toList.take 100⟩)
    else (false, "")
  | none => (false, "")

/-- `DiscordAdapter._clean_mention_from_text`: drop `<@...>` tags, the
`@bot`/`@asistente`/`@meshchile` mentions, and the leading trigger prefixes,
then strip. -/
def dcCleanMention (text : String) : String :=
  if text = "" then text
  else
    let t := dcStripMentionTags text.toList
    let t := removeAllCIB "@bot".toList t
    let t := removeAllCIB "@asistente".toList t
    let t := removeAllCIB "@meshchile".toList t
    let t := stripStartCI "bot".toList sepClass true t
    let t := stripStartCI "asistente".toList sepClass true t
    let t := stripStartCI "hey bot".toList sepClass false t
    let t := stripStartCI "hola bot".toList sepClass false t
    ⟨pyStrip t⟩

/-- `DiscordAdapter._sanitize_message` (2000-char platform limit, control
characters removed, no newline collapsing). -/
def dcSanitize (text : String) : String :=
  if text = "" then "Mensaje vacío"
  else
    let text := if text.length > 1900 then
      ⟨text.toList.take 1850⟩ ++ "\n\n... (mensaje truncado por longitud)" else text
    (⟨stripCtl text.toList⟩ : String)

/-- `DiscordAdapter._get_session_id`. -/
def dcGetSessionId (m : DcMessage) : String :=
  if m.isDM then "discord_dm_" ++ toString m.authorId
  else
    "discord_guild_" ++
      (match m.guildId with
       | some g => toString g
       | none => "unknown") ++ "_channel_" ++ toString m.channelId

/-- What one dispatched Discord message resolves to before the agent is
consulted (sends go to the message's own channel). -/
inductive DcAction where
  | dropped : DcAction
  | send (text : String) : DcAction
  | agent (messageType content replyContext : String) : DcAction
deriving DecidableEq, Repr

def dcWelcomeDM (authorName : String) : String :=
  "¡Hola " ++ authorName ++ "! 👋\n\n🔗 Soy el asistente FAQ de la comunidad **MeshChile Meshtastic**.\n\nPuedes preguntarme sobre:\n• Configuración de nodos\n• Integraciones disponibles\n• Funciones de la comunidad\n• Soporte técnico\n\nSolo escríbeme tu pregunta normalmente."

def dcWelcomeGuild (authorName : String) : String :=
  "¡Hola " ++ authorName ++ "! 👋\n\n🔗 Soy el bot FAQ de **MeshChile Meshtastic**.\n\n📱 **En canales**: Mencióname o responde a mis mensajes\n💬 **Mensaje directo**: Escríbeme directo\n\n🤖 Pregúntame sobre configuración, integraciones, cobertura, etc."

/-- `DiscordAdapter._handle_direct_message`. -/
def dcHandleDirect (m : DcMessage) : DcAction :=
  let content := pyStripS m.content
  if lowerS content ∈ (["hola", "start", "ayuda", "help"] : List String) then
    DcAction.send (dcWelcomeDM (dcAuthorName m))
  else if content.length < 2 then
    DcAction.send "¿Tienes alguna pregunta sobre Meshtastic o la comunidad MeshChile?"
  else DcAction.agent "dm" content ""

/-- `DiscordAdapter._handle_guild_message`. -/
def dcHandleGuild (cfg : DcConfig) (m : DcMessage) : DcAction :=
  let content := pyStripS m.content
  let mentioned := dcIsBotMentioned cfg m
  let rp := dcIsReplyToBot cfg m
  if !mentioned && !rp.1 then DcAction.dropped
  else
    let clean := pyStripS (dcCleanMention content)
    if lowerS clean ∈ (["start", "hola", "ayuda", "help"] : List String) then
      DcAction.send (dcWelcomeGuild (dcAuthorName m))
    else if clean = "" then
      DcAction.send (dcAuthorName m ++ ", ¿en qué puedo ayudarte con Meshtastic? 🔗")
    else DcAction.agent "guild" clean rp.2

/-- The `interaction_type` computed at `discord.py:268` for an activated
guild message (`none` when the message is not activated). -/
def dcGuildInteractionLabel (cfg : DcConfig) (m : DcMessage) : Option String :=
  let mentioned := dcIsBotMentioned cfg m
  let rp := dcIsReplyToBot cfg m
  if !mentioned && !rp.1 then none
  else some (if mentioned then "mención" else "respuesta")

/-- `DiscordAdapter._process_message`: channel filter, the silent drop of
empty (stripped) content, then the DM/guild dispatch. -/
def dcProcessAction (cfg : DcConfig) (m : DcMessage) : DcAction :=
  if !(dcIsTargetChannel cfg m) then DcAction.dropped
  else if pyStripS m.content = "" then DcAction.dropped
  else if m.isDM then dcHandleDirect m
  else dcHandleGuild cfg m

structure DcRunOut where
  store : Store
  sends : List String
  agentCalled : Bool
deriving DecidableEq, Repr

/-- One Discord inbound event, end to end
(`_process_message` → `_process_with_agent` → `BotAgent.process_message`). -/
def dcRun (cfg : DcConfig) (scfg : SessionConfig) (sysPrompt : String)
    (s : Store) (m : DcMessage)
    (backend : List (String × String) → Except String String)
    (now : String) : DcRunOut :=
  match dcProcessAction cfg m with
  | DcAction.dropped => ⟨s, [], false⟩
  | DcAction.send text => ⟨s, [text], false⟩
  | DcAction.agent messageType content replyContext =>
    let sessionId := dcGetSessionId m
    let content := if replyContext ≠ "" then
      "[Respondiendo a: " ++ replyContext ++ "]\n\n" ++ content else content
    let r := processMessage scfg sysPrompt s content sessionId
      ("discord_" ++ messageType) (some (toString m.authorId)) backend now
    let response := if messageType = "guild" then
      dcAuthorName m ++ ", " ++ r.response else r.response
    ⟨r.store, [dcSanitize response], true⟩

/-! ## WhatsApp Business API adapter (`app/adapters/whatsapp_api.py`) -/

/-- The bot phone number fetched by `_get_bot_info` (may be unset). -/
structure WsConfig where
  botPhone : Option String
deriving DecidableEq, Repr

/-- The `context` object of a WhatsApp message (present iff the dict is
truthy); `ctxFrom` is `context.get("from")`, `body` is
`context.get("body", "")`. -/
structure WsCtx where
  ctxFrom : Option String
  body : String
deriving DecidableEq, Repr

/-- The fields of a WhatsApp webhook message that the adapter reads. -/
structure WsMessage where
  fromPhone : Option String
  msgType : String
  textBody : String
  ctx : Option WsCtx
deriving DecidableEq, Repr

/-- `WhatsAppAPIAdapter._is_bot_mentioned` (the WhatsApp trigger patterns,
tested on the lowered, stripped text). -/
def wsIsBotMentioned (messageText : String) : Bool :=
  if messageText = "" then false
  else
    let cl := pyStrip (toLowerList messageText)
    searchPatB "@bot".toList cl ||
    searchPatB "@asistente".toList cl ||
    searchPatB "@meshchile".toList cl ||
    matchStartThen "bot".toList sepClass cl ||
    matchStartThen "asistente".toList sepClass cl ||
    matchStartB "hey bot".toList cl ||
    matchStartB "hola bot".toList cl

/-- `WhatsAppAPIAdapter._is_reply_to_bot`: a truthy `context` whose `from`
equals the bot's phone number (Python `==`, so `None == None` holds). -/
def wsIsReplyToBot (cfg : WsConfig) (m : WsMessage) : Bool :=
  match m.ctx with
  | none => false
  | some c => pyEqOptStr c.ctxFrom cfg.botPhone

/-- `WhatsAppAPIAdapter._get_reply_context`. -/
def wsGetReplyContext (cfg : WsConfig) (m : WsMessage) : String :=
  match m.ctx with
  | none => ""
  | some c =>
    if pyEqOptStr c.ctxFrom cfg.botPhone && c.body ≠ "" then
      "[Respondiendo a: " ++ (⟨c.body.toList.take 100⟩ : String) ++ "...]"
    else ""

/-- `WhatsAppAPIAdapter._clean_mention_from_text`. -/
def wsCleanMention (text : String) : String :=
  if text = "" then text
  else
    let t := removeAllCIB "@bot".toList text.toList
    let t := removeAllCIB "@asistente".toList t
    let t := removeAllCIB "@meshchile".toList t
    let t := stripStartCI "bot".toList sepClass true t
    let t := stripStartCI "asistente".toList sepClass true t
    let t := stripStartCI "hey bot".toList sepClass false t
    let t := stripStartCI "hola bot".toList sepClass false t
    ⟨pyStrip t⟩

/-- `WhatsAppAPIAdapter._sanitize_message` (4096-char platform limit,
control characters removed, newline runs collapsed). -/
def wsSanitize (text : String) : String :=
  if text = "" then "Mensaje vacío"
  else
    let text := if text.length > 4000 then
      ⟨text.toList.take 3950⟩ ++ "\n\n... (mensaje truncado por longitud)" else text
    let text : String := ⟨stripCtl text.toList⟩
    ⟨collapseNl text.toList⟩

/-- `WhatsAppAPIAdapter._get_session_id` (`group_identifier = group_id or
from_phone` is Python `or`: an empty `group_id` falls back). -/
def wsGetSessionId (fromPhone chatType : String) (groupId : Option String) : String :=
  if chatType = "individual" then "whatsapp_api_private_" ++ fromPhone
  else
    "whatsapp_api_group_" ++
      (match groupId with
       | some g => if g ≠ "" then g else fromPhone
       | none => fromPhone)

/-- `_determine_chat_type`: a group `from` contains `-` and `@g.us`. -/
def wsIsGroupFrom (p : String) : Bool :=
  containsLit "-".toList p.toList && containsLit "@g.us".toList p.toList

inductive WsAction where
  | dropped : WsAction
  | send (toPhone text : String) : WsAction
  | agent (toPhone sessionBase chatType cleanText : String) : WsAction
deriving DecidableEq, Repr

def wsWelcomePrivate (userName : String) : String :=
  "¡Hola " ++ userName ++ "! 👋\n\n🔗 Soy el asistente FAQ de la comunidad **MeshChile Meshtastic**.\n\nPuedes preguntarme sobre:\n• Configuración de nodos\n• Integraciones disponibles\n• Funciones de la comunidad\n• Soporte técnico\n\nSolo escríbeme tu pregunta normalmente."

def wsWelcomeGroup (userName : String) : String :=
  "¡Hola " ++ userName ++ "! 👋\n\n🔗 Soy el bot FAQ de **MeshChile Meshtastic**.\n\n📱 **En grupos**: Mencioname con @bot o responde a mis mensajes\n\n💬 **Chat privado**: Escríbeme directo\n\n🤖 Pregúntame sobre configuración, integraciones, cobertura, etc."

/-- `WhatsAppAPIAdapter._handle_private_message`. -/
def wsHandlePrivate (fromPhone userName text : String) : WsAction :=
  if lowerS text ∈ (["hola", "/start", "start", "ayuda", "help"] : List String) then
    WsAction.send fromPhone (wsWelcomePrivate userName)
  else if text = "" || (pyStripS text).length < 2 then
    WsAction.send fromPhone "¿Tienes alguna pregunta sobre Meshtastic o la comunidad MeshChile?"
  else WsAction.agent fromPhone fromPhone "individual" text

/-- `WhatsAppAPIAdapter._handle_group_message`. -/
def wsHandleGroup (cfg : WsConfig) (m : WsMessage) (userName text groupId : String) :
    WsAction :=
  let mentioned := wsIsBotMentioned text
  let isReply := wsIsReplyToBot cfg m
  if !mentioned && !isReply then WsAction.dropped
  else
    let clean := pyStripS (wsCleanMention text)
    if lowerS clean ∈ (["/start", "start", "hola", "ayuda", "help"] : List String) then
      WsAction.send groupId (wsWelcomeGroup userName)
    else if clean = "" then
      WsAction.send groupId (userName ++ ", ¿en qué puedo ayudarte con Meshtastic? 🔗")
    else WsAction.agent groupId groupId "group" clean

/-- The `interaction_type` computed at `whatsapp_api.py:291` for an
activated group message (`none` when the message is not activated). -/
def wsGroupInteractionLabel (cfg : WsConfig) (m : WsMessage) : Option String :=
  let mentioned := wsIsBotMentioned m.textBody
  let isReply := wsIsReplyToBot cfg m
  if !mentioned && !isReply then none
  else some (if mentioned then "mención" else "respuesta")

/-- `WhatsAppAPIAdapter._process_message` (the `userName` argument stands
for the name found in the webhook's `contacts`, default `"Usuario"`). -/
def wsProcessAction (cfg : WsConfig) (m : WsMessage) (userName : String) : WsAction :=
  match m.fromPhone with
  | none => WsAction.dropped
  | some fp =>
    if fp = "" then WsAction.dropped
    else if m.msgType ≠ "text" then WsAction.dropped
    else if m.textBody = "" then WsAction.dropped
    else if !(wsIsGroupFrom fp) then wsHandlePrivate fp userName m.textBody
    else wsHandleGroup cfg m userName m.textBody fp

structure WsRunOut where
  store : Store
  sends : List (String × String)
  agentCalled : Bool
deriving DecidableEq, Repr

/-- One WhatsApp inbound event, end to end
(`_process_message` → `_process_with_agent` → `BotAgent.process_message`). -/
def wsRun (cfg : WsConfig) (scfg : SessionConfig) (sysPrompt : String)
    (s : Store) (m : WsMessage) (userName : String)
    (backend : List (String × String) → Except String String)
    (now : String) : WsRunOut :=
  match wsProcessAction cfg m userName with
  | WsAction.dropped => ⟨s, [], false⟩
  | WsAction.send toPhone text => ⟨s, [(toPhone, text)], false⟩
  | WsAction.agent toPhone sessionBase chatType cleanText =>
    let sessionId := wsGetSessionId sessionBase chatType
      (if chatType = "group" then some sessionBase else none)
    let replyContext := wsGetReplyContext cfg m
    let text := if replyContext ≠ "" then replyContext ++ "\n\n" ++ cleanText else cleanText
    let r := processMessage scfg sysPrompt s text sessionId
      ("whatsapp_api_" ++ chatType) (some userName) backend now
    let response := if chatType = "group" then userName ++ ", " ++ r.response else r.response
    ⟨r.store, [(toPhone, wsSanitize response)], true⟩

/-- The `interaction_type` computed at `telegram.py:259-263` for an
activated group message (`none` when the message is not activated):
starts as `"mención"`, switched to `"respuesta"` when the replied-to
message's `from.id` equals the bot id (Python `==`, `None == None` holds). -/
def tgGroupInteractionLabel (bot : TgBotInfo) (m : TgMessage) : Option String :=
  if !(tgIsBotMentioned bot m.text m.entities m.replyFrom) then none
  else some (match m.replyFrom with
    | some rf => if pyEqOptInt rf.id bot.botId then "respuesta" else "mención"
    | none => "mención")

/-! ## Store lemmas -/

theorem Store.get_set (s : Store) (k : String) (e : StoredEntry) :
    Store.get (Store.set s k e) k = some e := by
  unfold Store.get Store.set
  rw [List.find?_cons_of_pos]
  · rfl
  · simp

theorem Store.get_del (s : Store) (k : String) : Store.get (Store.del s k) k = none := by
  unfold Store.get Store.del
  induction s with
  | nil => rfl
  | cons p ps ih =>
    simp only [List.filter_cons]
    by_cases hp : p.1 = k
    · rw [if_neg (by simp [hp])]
      exact ih
    · rw [if_pos (by simp [hp])]
      rw [List.find?_cons_of_neg]
      · exact ih
      · simp [hp]

theorem pyTrim_eq_drop (maxM : Nat) (h : 0 < maxM) (l : List StoredMsg) :
    pyTrim maxM l = l.drop (l.length - maxM) := by
  unfold pyTrim pySliceLast
  split
  · rw [if_neg (by omega)]
  · have hz : l.length - maxM = 0 := by omega
    rw [hz, List.drop_zero]

theorem pyTrim_length_le (maxM : Nat) (h : 0 < maxM) (l : List StoredMsg) :
    (pyTrim maxM l).length ≤ maxM ⊔ l.length := by
  rw [pyTrim_eq_drop maxM h, List.length_drop]
  omega

theorem pyTrim_length_le' (maxM : Nat) (h : 0 < maxM) (l : List StoredMsg) :
    (pyTrim maxM l).length ≤ maxM := by
  rw [pyTrim_eq_drop maxM h, List.length_drop]
  omega

theorem pyTrim_trim_append (maxM : Nat) (h : 0 < maxM) (A R : List StoredMsg) :
    pyTrim maxM (pyTrim maxM A ++ R) = pyTrim maxM (A ++ R) := by
  simp only [pyTrim_eq_drop maxM h]
  rw [List.drop_append_eq_append_drop, List.drop_append_eq_append_drop,
      List.drop_drop, List.length_append, List.length_append, List.length_drop]
  by_cases hr : maxM ≤ R.length
  · have h1 : A.drop ((A.length - maxM) +
        ((A.length - (A.length - maxM) + R.length) - maxM)) = [] :=
      List.drop_eq_nil_of_le (by omega)
    have h2 : A.drop ((A.length + R.length) - maxM) = [] :=
      List.drop_eq_nil_of_le (by omega)
    rw [h1, h2]
    simp only [List.nil_append]
    congr 1
    omega
  · congr 1
    · congr 1
      omega
    · congr 1
      omega

theorem pyTrim_append_of_le (maxM : Nat) (h : 0 < maxM) (A B : List StoredMsg)
    (hb : maxM ≤ B.length) :
    pyTrim maxM (A ++ B) = B.drop (B.length - maxM) := by
  rw [pyTrim_eq_drop maxM h, List.drop_append_eq_append_drop, List.length_append]
  have h1 : A.drop ((A.length + B.length) - maxM) = [] :=
    List.drop_eq_nil_of_le (by omega)
  rw [h1, List.nil_append]
  congr 1
  omega

theorem pyTrim_append_of_ge (maxM : Nat) (h : 0 < maxM) (A B : List StoredMsg)
    (hb : B.length ≤ maxM) :
    pyTrim maxM (A ++ B) = A.drop ((A.length + B.length) - maxM) ++ B := by
  rw [pyTrim_eq_drop maxM h, List.drop_append_eq_append_drop, List.length_append]
  congr 1
  have hz : (A.length + B.length) - maxM - A.length = 0 := by omega
  rw [hz, List.drop_zero]

theorem Store.get_addMessage (cfg : SessionConfig) (s : Store) (sid : String)
    (m : StoredMsg) (now : String) :
    Store.get (addMessage cfg s sid m now) (sessionKey sid)
      = some ⟨RawValue.jsonList (pyTrim cfg.maxMessages
          ((getContext s sid).context ++ [withTimestamp m now])), cfg.sessionTTL⟩ := by
  unfold addMessage
  exact Store.get_set _ _ _

theorem getContext_addMessage (cfg : SessionConfig) (s : Store) (sid : String)
    (m : StoredMsg) (now : String) :
    (getContext (addMessage cfg s sid m now) sid).context
      = pyTrim cfg.maxMessages ((getContext s sid).context ++ [withTimestamp m now]) := by
  unfold getContext
  rw [Store.get_addMessage]
  rfl

/-- Appending a batch of messages, one `add_message` at a time: the stored
context is the trimmed concatenation (provided the starting context is
already within the bound). -/
theorem foldl_addMessage_context (cfg : SessionConfig) (h : 0 < cfg.maxMessages)
    (now : String) (ms : List StoredMsg) :
    ∀ (s : Store) (sid : String),
      (getContext s sid).context.length ≤ cfg.maxMessages →
      (getContext (ms.foldl (fun st mm => addMessage cfg st sid mm now) s) sid).context
        = pyTrim cfg.maxMessages
            ((getContext s sid).context ++ ms.map (fun mm => withTimestamp mm now)) := by
  induction ms with
  | nil =>
    intro s sid hlen
    simp only [List.foldl_nil, List.map_nil, List.append_nil]
    unfold pyTrim
    rw [if_neg (by omega)]
  | cons mm ms ih =>
    intro s sid hlen
    simp only [List.foldl_cons, List.map_cons]
    rw [ih (addMessage cfg s sid mm now) sid
          (by rw [getContext_addMessage]; exact pyTrim_length_le' _ h _)]
    rw [getContext_addMessage, pyTrim_trim_append _ h]
    simp only [List.append_assoc, List.singleton_append]

/-- `get_context` leaves the store unchanged whenever the session's record
is not corrupt. -/
def corruptAt (s : Store) (sid : String) : Bool :=
  match Store.get s (sessionKey sid) with
  | some e =>
    match e.value with
    | RawValue.corrupt => true
    | _ => false
  | none => false

theorem getContext_store_eq (s : Store) (sid : String) (h : corruptAt s sid = false) :
    (getContext s sid).store = s := by
  unfold corruptAt at h
  unfold getContext
  rcases hg : Store.get s (sessionKey sid) with _ | e
  · rfl
  · rw [hg] at h
    rcases e with ⟨v, t⟩
    cases v
    · rfl
    · rfl
    · rfl
    · exact Bool.noConfusion h

/-! ## Claim theorems -/

/-- Session-id templates exactly as the spec writes them in §4.3, for
comparison with the code's derivers (`tgGetSessionId`, `dcGetSessionId`,
`wsGetSessionId`). -/
def specDeriveSessionId (platform chatKind chatId userId : String)
    (threadId : Option String) : String :=
  if chatKind = "direct" then platform ++ ":direct:" ++ chatId ++ ":" ++ userId
  else
    match threadId with
    | some t => platform ++ ":group:" ++ chatId ++ ":thread:" ++ t
    | none => platform ++ ":group:" ++ chatId

/-- C1, counterexample.  For a Telegram group message in chat 999, thread 7,
the code derives "telegram_group_999_thread_7", not the spec's
colon-separated template "telegram:group:999:thread:7"; likewise the direct
template is "telegram_private_123_456", not "telegram:direct:123:456".  The
spec's templates and the code's derivation disagree on every inbound
message. -/
theorem C1_counterexample :
    tgGetSessionId 999 1 "group" (some 7) = "telegram_group_999_thread_7" ∧
    specDeriveSessionId "telegram" "group" "999" "1" (some "7")
      = "telegram:group:999:thread:7" ∧
    tgGetSessionId 999 1 "group" (some 7)
      ≠ specDeriveSessionId "telegram" "group" "999" "1" (some "7") ∧
    tgGetSessionId 123 456 "private" none = "telegram_private_123_456" ∧
    specDeriveSessionId "telegram" "direct" "123" "456" none
      = "telegram:direct:123:456" ∧
    tgGetSessionId 123 456 "private" none
      ≠ specDeriveSessionId "telegram" "direct" "123" "456" none := by
  refine ⟨rfl, rfl, ?_, rfl, rfl, ?_⟩ <;> decide

/-- C1, amended.  The derived session ids follow the code's
underscore-separated templates: "telegram_private_{chat}_{user}" for private
chats, "telegram_group_{chat}_thread_{thread}" for group chats with a
(non-zero) thread id, "telegram_group_{chat}" otherwise, and
"discord_dm_{author}" for Discord DMs; two messages from different users in
Telegram chat 999, thread 7 share the session id, and thread 8 yields a
distinct one. -/
theorem C1_amended (c u : Int) (t : Int) (ht : t ≠ 0) :
    tgGetSessionId c u "private" none
      = "telegram_private_" ++ toString c ++ "_" ++ toString u ∧
    tgGetSessionId c u "group" (some t)
      = "telegram_group_" ++ toString c ++ "_thread_" ++ toString t ∧
    tgGetSessionId c u "group" none = "telegram_group_" ++ toString c ∧
    (∀ m : DcMessage, m.isDM = true →
      dcGetSessionId m = "discord_dm_" ++ toString m.authorId) ∧
    tgGetSessionId 999 10 "group" (some 7) = tgGetSessionId 999 20 "group" (some 7) ∧
    tgGetSessionId 999 10 "group" (some 7) ≠ tgGetSessionId 999 10 "group" (some 8) := by
  refine ⟨rfl, ?_, rfl, ?_, rfl, by decide⟩
  · unfold tgGetSessionId
    rw [if_neg (by decide)]
    exact if_neg ht
  · intro m hm
    unfold dcGetSessionId
    rw [if_pos hm]

/-- Witness for `C1_amended` at thread id 7. -/
theorem C1_amended_witness :
    (7 : Int) ≠ 0 ∧ tgGetSessionId 5 6 "group" (some 7) = "telegram_group_5_thread_7" :=
  ⟨by decide, ((C1_amended 5 6 7 (by decide)).2.1).trans (by rfl)⟩

/-- C2.  If the completion call fails (timeout, non-2xx status, or any
exception raised by `chat_completion`, modelled as `Except.error`), then
`process_message` appends nothing — the store is exactly what it was before
the call (assuming the session record is not corrupt, in which case even the
preceding read leaves the store untouched) — and the fixed apology text is
returned as the response; timeouts and non-200 statuses are indeed failures
of `chatCompletion`. -/
theorem C2_backend_failure_no_append (cfg : SessionConfig) (sysPrompt : String)
    (s : Store) (message sessionId platform : String) (userId : Option String)
    (now : String) (backend : List (String × String) → Except String String)
    (err : String)
    (hfail : backend (buildMessages sysPrompt (getContext s sessionId).context message)
      = Except.error err)
    (hwf : corruptAt s sessionId = false) :
    processMessage cfg sysPrompt s message sessionId platform userId backend now
      = ⟨agentApology, s⟩ ∧
    (∀ timeoutCfg baseUrl,
      isOkE (chatCompletion timeoutCfg baseUrl HttpResult.timeout) = false) ∧
    (∀ timeoutCfg baseUrl status content text, status ≠ 200 →
      isOkE (chatCompletion timeoutCfg baseUrl
        (HttpResult.response status content text)) = false) := by
  refine ⟨?_, fun timeoutCfg baseUrl => rfl,
    fun timeoutCfg baseUrl status content text hst => ?_⟩
  · simp only [processMessage]
    rw [hfail]
    rw [getContext_store_eq s sessionId hwf]
  · simp only [chatCompletion]
    rw [if_neg hst]
    rfl

/-- Witness for `C2_backend_failure_no_append`: a backend that raises leaves
the (empty) store untouched and yields the apology. -/
theorem C2_witness :
    ((fun _ => Except.error "Timeout connecting to OpenWebUI after 60s") :
        List (String × String) → Except String String)
      (buildMessages "" (getContext ([] : Store) "telegram_private_123_456").context "hi")
      = Except.error "Timeout connecting to OpenWebUI after 60s" ∧
    corruptAt ([] : Store) "telegram_private_123_456" = false ∧
    processMessage {} "" ([] : Store) "hi" "telegram_private_123_456" "telegram_private"
      (some "456") (fun _ => Except.error "Timeout connecting to OpenWebUI after 60s") "t0"
      = ⟨agentApology, ([] : Store)⟩ :=
  ⟨rfl, rfl,
    (C2_backend_failure_no_append {} "" ([] : Store) "hi" "telegram_private_123_456"
      "telegram_private" (some "456") "t0"
      (fun _ => Except.error "Timeout connecting to OpenWebUI after 60s")
      "Timeout connecting to OpenWebUI after 60s" rfl rfl).1⟩

/-- C3.  After any single `add_message` the stored turn list has length at
most the configured maximum and carries a freshly reset TTL; appending
`max + 1` turns to a store with an absent session leaves exactly the `max`
most recent turns in their original relative order; and the configured
defaults are 20 turns and 3600 seconds. -/
theorem C3_bounded_append (cfg : SessionConfig) (s : Store) (sid : String)
    (m : StoredMsg) (now : String) (ms : List StoredMsg)
    (hmax : 0 < cfg.maxMessages)
    (hstart : Store.get s (sessionKey sid) = none)
    (hlen : ms.length = cfg.maxMessages + 1) :
    (∀ s' : Store, ∃ ctx : List StoredMsg,
      Store.get (addMessage cfg s' sid m now) (sessionKey sid)
        = some ⟨RawValue.jsonList ctx, cfg.sessionTTL⟩ ∧
      ctx.length ≤ cfg.maxMessages) ∧
    (getContext (ms.foldl (fun st mm => addMessage cfg st sid mm now) s) sid).context
      = (ms.map (fun mm => withTimestamp mm now)).drop 1 ∧
    ({} : SessionConfig).maxMessages = 20 ∧ ({} : SessionConfig).sessionTTL = 3600 := by
  have hempty : getContext s sid = ⟨[], s⟩ := by
    unfold getContext
    rw [hstart]
  refine ⟨fun s' => ⟨_, Store.get_addMessage cfg s' sid m now,
    pyTrim_length_le' _ hmax _⟩, ?_, rfl, rfl⟩
  rw [foldl_addMessage_context cfg hmax now ms s sid (by rw [hempty]; simp)]
  rw [hempty]
  simp only [List.nil_append]
  rw [pyTrim_eq_drop _ hmax, List.length_map, hlen]
  congr 1
  omega

/-- Witness for `C3_bounded_append` with max = 2 and three appended turns:
the two most recent survive, in order. -/
theorem C3_witness :
    0 < (⟨3600, 2⟩ : SessionConfig).maxMessages ∧
    Store.get ([] : Store) (sessionKey "w") = none ∧
    ([⟨"user", "a", none, none, none⟩, ⟨"user", "b", none, none, none⟩,
      ⟨"user", "c", none, none, none⟩] : List StoredMsg).length
      = (⟨3600, 2⟩ : SessionConfig).maxMessages + 1 ∧
    (getContext (([⟨"user", "a", none, none, none⟩, ⟨"user", "b", none, none, none⟩,
        ⟨"user", "c", none, none, none⟩] : List StoredMsg).foldl
        (fun st mm => addMessage ⟨3600, 2⟩ st "w" mm "t0") ([] : Store)) "w").context
      = [⟨"user", "b", none, none, some "t0"⟩, ⟨"user", "c", none, none, some "t0"⟩] := by
  refine ⟨by decide, rfl, by decide, ?_⟩
  have h := (C3_bounded_append ⟨3600, 2⟩ ([] : Store) "w" ⟨"user", "x", none, none, none⟩
    "t0" [⟨"user", "a", none, none, none⟩, ⟨"user", "b", none, none, none⟩,
      ⟨"user", "c", none, none, none⟩] (by decide) rfl (by decide)).2.1
  exact h.trans (by rfl)

/-- C8.  A turn appended via `add_message` is the last element returned by
`get_context` immediately afterwards, and after any further sequence of
fewer than `max` appends it is still present with exactly those later turns
after it (same relative position, order preserved), until eviction. -/
theorem C8_round_trip (cfg : SessionConfig) (s : Store) (sid : String)
    (m : StoredMsg) (now : String) (ms : List StoredMsg)
    (hmax : 0 < cfg.maxMessages) (hms : ms.length < cfg.maxMessages) :
    (getContext (addMessage cfg s sid m now) sid).context.getLast?
      = some (withTimestamp m now) ∧
    ∃ older : List StoredMsg,
      (getContext (ms.foldl (fun st mm => addMessage cfg st sid mm now)
          (addMessage cfg s sid m now)) sid).context
        = older ++ withTimestamp m now :: ms.map (fun mm => withTimestamp mm now) := by
  constructor
  · rw [getContext_addMessage]
    rw [pyTrim_append_of_ge _ hmax _ _
      (by simp only [List.length_cons, List.length_nil]; omega)]
    exact List.getLast?_concat _
  · rw [foldl_addMessage_context cfg hmax now ms _ sid
      (by rw [getContext_addMessage]; exact pyTrim_length_le' _ hmax _)]
    rw [getContext_addMessage]
    rw [pyTrim_trim_append _ hmax]
    rw [List.append_assoc, List.singleton_append]
    rw [pyTrim_append_of_ge _ hmax _ _
      (by simp only [List.length_cons, List.length_map]; omega)]
    exact ⟨_, rfl⟩

/-- Witness for `C8_round_trip` with the default configuration and one later
append. -/
theorem C8_witness :
    0 < ({} : SessionConfig).maxMessages ∧
    ([⟨"user", "later", none, none, none⟩] : List StoredMsg).length
      < ({} : SessionConfig).maxMessages ∧
    (getContext (addMessage {} ([] : Store) "w8" ⟨"user", "first", none, none, none⟩ "t0")
      "w8").context.getLast? = some (withTimestamp ⟨"user", "first", none, none, none⟩ "t0") :=
  ⟨by decide, by decide,
    (C8_round_trip {} ([] : Store) "w8" ⟨"user", "first", none, none, none⟩ "t0"
      [⟨"user", "later", none, none, none⟩] (by decide) (by decide)).1⟩

/-- C4.  A group message that is neither a reply to the bot nor contains any
mention of it (native entity, identity name, or configured trigger pattern —
all of which the embedded mention predicates cover) is dropped with no side
effects on both Telegram and Discord: nothing is sent, the agent (and with
it the backend and the conversation store) is never invoked, and the store
is returned unchanged. -/
theorem C4_group_no_mention_dropped
    (cfg : SessionConfig) (sysPrompt : String) (bot : TgBotInfo) (s : Store)
    (mT : TgMessage) (backend : List (String × String) → Except String String)
    (now : String) (dcfg : DcConfig) (mD : DcMessage)
    (hT : mT.chatType = "group" ∨ mT.chatType = "supergroup")
    (hTnm : tgIsBotMentioned bot mT.text mT.entities mT.replyFrom = false)
    (hD : mD.isDM = false)
    (hDnm : dcIsBotMentioned dcfg mD = false)
    (hDnr : (dcIsReplyToBot dcfg mD).1 = false) :
    tgRun cfg sysPrompt bot s mT backend now = ⟨s, [], false⟩ ∧
    dcRun dcfg cfg sysPrompt s mD backend now = ⟨s, [], false⟩ := by
  constructor
  · have hact : tgProcessAction bot mT = TgAction.dropped := by
      unfold tgProcessAction
      rcases hc : mT.chatId with _ | cid
      · rfl
      · rcases hf : mT.fromId with _ | uid
        · rfl
        · dsimp only
          by_cases h0 : (cid = 0 || uid = 0 : Bool) = true
          · rw [if_pos h0]
          · rw [if_neg h0]
            rcases hT with h | h <;> rw [h]
            · rw [if_neg (by decide), if_pos (by decide)]
              simp [tgHandleGroup, hTnm]
            · rw [if_neg (by decide), if_pos (by decide)]
              simp [tgHandleGroup, hTnm]
    unfold tgRun
    rw [hact]
  · have hact : dcProcessAction dcfg mD = DcAction.dropped := by
      unfold dcProcessAction
      by_cases ht : dcIsTargetChannel dcfg mD = true
      · rw [ht]
        by_cases hs : pyStripS mD.content = ""
        · rw [if_neg (by decide), if_pos hs]
        · rw [if_neg (by decide), if_neg hs, hD, if_neg (by decide)]
          simp [dcHandleGuild, hDnm, hDnr]
      · rw [Bool.not_eq_true] at ht
        rw [ht]
        rfl
    unfold dcRun
    rw [hact]

/-- Witness for `C4_group_no_mention_dropped`: the spec's Scenario C text
"nice weather today" in a Telegram group and a Discord guild channel. -/
theorem C4_witness :
    (("group" : String) = "group" ∨ ("group" : String) = "supergroup") ∧
    tgIsBotMentioned ⟨"meshbot", some 99⟩ "nice weather today" [] none = false ∧
    dcIsBotMentioned ⟨none, none, some 42, some "faqbot"⟩
      ⟨7, "Ana", "ana", "nice weather today", false, some 1, 5, false, none, ""⟩ = false ∧
    tgRun {} "" ⟨"meshbot", some 99⟩ ([] : Store)
      ⟨some 999, "group", "g", none, some 456, some "Ana", "nice weather today", [], none⟩
      (fun _ => Except.ok "resp") "t0" = ⟨([] : Store), [], false⟩ :=
  ⟨Or.inl rfl, by decide, by decide,
    (C4_group_no_mention_dropped {} "" ⟨"meshbot", some 99⟩ ([] : Store)
      ⟨some 999, "group", "g", none, some 456, some "Ana", "nice weather today", [], none⟩
      (fun _ => Except.ok "resp") "t0" ⟨none, none, some 42, some "faqbot"⟩
      ⟨7, "Ana", "ana", "nice weather today", false, some 1, 5, false, none, ""⟩
      (Or.inl rfl) (by decide) rfl (by decide) (by decide)).1⟩

/-- C5, counterexample.  A whitespace-only Discord direct message is
silently dropped: `_process_message` returns before the direct-message
handler runs (`if not content: return`), so nothing is sent at all — not
the canned clarifying prompt the claim requires. -/
theorem C5_counterexample :
    dcRun ⟨none, none, some 42, some "faqbot"⟩ {} "" ([] : Store)
      ⟨7, "Ana", "ana", "   ", true, none, 5, false, none, ""⟩
      (fun _ => Except.ok "resp") "t0"
      = ⟨([] : Store), [], false⟩ := by
  rfl

/-- C5, amended.  A direct message whose text is non-empty after stripping
is always answered (the Discord dispatcher never drops it, and the WhatsApp
private handler never drops any message it receives); but a whitespace-only
Discord direct message is silently dropped with no reply, while on WhatsApp
a non-command text whose stripped form is shorter than two characters gets
the canned clarifying prompt. -/
theorem C5_amended (dcfg : DcConfig) (scfg : SessionConfig) (sysPrompt : String)
    (s : Store) (backend : List (String × String) → Except String String)
    (now : String) (m1 m2 : DcMessage) (wfp userName text : String)
    (h1dm : m1.isDM = true) (h1ne : pyStripS m1.content ≠ "")
    (h2dm : m2.isDM = true) (h2e : pyStripS m2.content = "")
    (hcmd : lowerS text ∉ (["hola", "/start", "start", "ayuda", "help"] : List String))
    (hlen : (pyStripS text).length < 2) :
    dcProcessAction dcfg m1 ≠ DcAction.dropped ∧
    dcRun dcfg scfg sysPrompt s m2 backend now = ⟨s, [], false⟩ ∧
    (∀ fp un tx : String, wsHandlePrivate fp un tx ≠ WsAction.dropped) ∧
    wsHandlePrivate wfp userName text
      = WsAction.send wfp "¿Tienes alguna pregunta sobre Meshtastic o la comunidad MeshChile?" := by
  refine ⟨?_, ?_, ?_, ?_⟩
  · unfold dcProcessAction
    have htc : dcIsTargetChannel dcfg m1 = true := by
      unfold dcIsTargetChannel
      rw [h1dm]
      rfl
    rw [htc, if_neg (by decide), if_neg h1ne, h1dm, if_pos rfl]
    unfold dcHandleDirect
    dsimp only
    split
    · simp
    · split
      · simp
      · simp
  · have hact : dcProcessAction dcfg m2 = DcAction.dropped := by
      unfold dcProcessAction
      have htc : dcIsTargetChannel dcfg m2 = true := by
        unfold dcIsTargetChannel
        rw [h2dm]
        rfl
      rw [htc, if_neg (by decide), if_pos h2e]
    unfold dcRun
    rw [hact]
  · intro fp un tx
    unfold wsHandlePrivate
    split
    · simp
    · split
      · simp
      · simp
  · unfold wsHandlePrivate
    rw [if_neg hcmd, if_pos (by simp [hlen])]

/-- Witness for `C5_amended`: a Discord DM "hello" is not dropped, a
whitespace-only Discord DM is, and a one-character WhatsApp text gets the
clarifying prompt. -/
theorem C5_amended_witness :
    pyStripS "hello" ≠ "" ∧ pyStripS "   " = "" ∧
    (pyStripS "x").length < 2 ∧
    dcProcessAction ⟨none, none, some 42, some "faqbot"⟩
      ⟨7, "Ana", "ana", "hello", true, none, 5, false, none, ""⟩ ≠ DcAction.dropped ∧
    dcRun ⟨none, none, some 42, some "faqbot"⟩ {} "" ([] : Store)
      ⟨7, "Ana", "ana", "   ", true, none, 5, false, none, ""⟩
      (fun _ => Except.ok "resp") "t0" = ⟨([] : Store), [], false⟩ ∧
    wsHandlePrivate "555" "Pepe" "x"
      = WsAction.send "555" "¿Tienes alguna pregunta sobre Meshtastic o la comunidad MeshChile?" := by
  have h := C5_amended ⟨none, none, some 42, some "faqbot"⟩ {} "" ([] : Store)
    (fun _ => Except.ok "resp") "t0"
    ⟨7, "Ana", "ana", "hello", true, none, 5, false, none, ""⟩
    ⟨7, "Ana", "ana", "   ", true, none, 5, false, none, ""⟩
    "555" "Pepe" "x" rfl (by decide) rfl (by decide) (by decide) (by decide)
  exact ⟨by decide, by decide, by decide, h.1, h.2.1, h.2.2.2⟩

/-- C6, counterexample.  A Telegram private chat has no "hola" shortcut:
the greeting is forwarded to the agent like any other text, the
conversation store is read and written (the session record for
"telegram_private_123_456" appears, holding the user and assistant turns),
and the backend is called — the store is touched, contrary to the claim. -/
theorem C6_counterexample :
    (tgRun {} "" ⟨"meshbot", some 99⟩ ([] : Store)
        ⟨some 123, "private", "", none, some 456, some "Ana", "hola", [], none⟩
        (fun _ => Except.ok "resp") "t0").agentCalled = true ∧
    Store.get (tgRun {} "" ⟨"meshbot", some 99⟩ ([] : Store)
        ⟨some 123, "private", "", none, some 456, some "Ana", "hola", [], none⟩
        (fun _ => Except.ok "resp") "t0").store (sessionKey "telegram_private_123_456")
      = some ⟨RawValue.jsonList
          [⟨"user", "hola", some "telegram_private", some "456", some "t0"⟩,
           ⟨"assistant", "resp", some "telegram_private", none, some "t0"⟩], 3600⟩ := by
  constructor
  · rfl
  · rfl

/-- C6, amended.  On Discord and WhatsApp a direct-chat "hola" (in any
case) short-circuits with the canned welcome and the conversation store is
not touched — no read, no append, no backend call; on Telegram, however,
private messages are never short-circuited and "hola" is forwarded to the
agent. -/
theorem C6_amended (dcfg : DcConfig) (wcfg : WsConfig) (scfg : SessionConfig)
    (sysPrompt : String) (s : Store)
    (backend : List (String × String) → Except String String)
    (now : String) (bot : TgBotInfo) :
    dcRun dcfg scfg sysPrompt s ⟨7, "Ana", "ana", "Hola", true, none, 5, false, none, ""⟩
      backend now = ⟨s, [dcWelcomeDM "Ana"], false⟩ ∧
    wsRun wcfg scfg sysPrompt s ⟨some "555", "text", "HOLA", none⟩ "Pepe" backend now
      = ⟨s, [("555", wsWelcomePrivate "Pepe")], false⟩ ∧
    (tgRun scfg sysPrompt bot s
        ⟨some 123, "private", "", none, some 456, some "Ana", "hola", [], none⟩
        backend now).agentCalled = true := by
  refine ⟨rfl, rfl, rfl⟩

/-- C7, counterexample.  A Discord guild message that both mentions the bot
natively and replies to one of the bot's messages is labelled "mención"
(the mention label), not the reply label: the code computes
`"mención" if is_mentioned else "respuesta"`, so the mention takes
precedence, contrary to the claim. -/
theorem C7_counterexample :
    dcIsBotMentioned ⟨none, none, some 42, some "faqbot"⟩
      ⟨7, "Ana", "ana", "hola bot", false, some 1, 5, true, some 42, "prev"⟩ = true ∧
    (dcIsReplyToBot ⟨none, none, some 42, some "faqbot"⟩
      ⟨7, "Ana", "ana", "hola bot", false, some 1, 5, true, some 42, "prev"⟩).1 = true ∧
    dcGuildInteractionLabel ⟨none, none, some 42, some "faqbot"⟩
      ⟨7, "Ana", "ana", "hola bot", false, some 1, 5, true, some 42, "prev"⟩
      = some "mención" ∧
    some "mención" ≠ some "respuesta" :=
  ⟨rfl, rfl, rfl, by decide⟩

/-- C7, amended.  An activated group message is always given exactly one
canonical interaction label, and when both a reply to the bot and a mention
are present the activation outcome is unchanged (the handler never drops);
but the precedence differs per platform: Telegram records the reply label
"respuesta", while Discord and WhatsApp record the mention label
"mención". -/
theorem C7_amended (dcfg : DcConfig) (mD : DcMessage) (wcfg : WsConfig)
    (mW : WsMessage) (bot : TgBotInfo) (mT : TgMessage) (rf : TgReplyFrom)
    (uW gW uT : String) (cT uidT : Int)
    (hDm : dcIsBotMentioned dcfg mD = true)
    (hDr : (dcIsReplyToBot dcfg mD).1 = true)
    (hWm : wsIsBotMentioned mW.textBody = true)
    (hWr : wsIsReplyToBot wcfg mW = true)
    (hTm : tgIsBotMentioned bot mT.text mT.entities mT.replyFrom = true)
    (hTrf : mT.replyFrom = some rf)
    (hTid : pyEqOptInt rf.id bot.botId = true) :
    dcGuildInteractionLabel dcfg mD = some "mención" ∧
    wsGroupInteractionLabel wcfg mW = some "mención" ∧
    tgGroupInteractionLabel bot mT = some "respuesta" ∧
    dcHandleGuild dcfg mD ≠ DcAction.dropped ∧
    wsHandleGroup wcfg mW uW mW.textBody gW ≠ WsAction.dropped ∧
    tgHandleGroup bot mT cT uidT uT ≠ TgAction.dropped := by
  refine ⟨?_, ?_, ?_, ?_, ?_, ?_⟩
  · simp [dcGuildInteractionLabel, hDm, hDr]
  · simp [wsGroupInteractionLabel, hWm, hWr]
  · have hTm' := hTm
    rw [hTrf] at hTm'
    simp [tgGroupInteractionLabel, hTrf, hTm', hTid]
  · unfold dcHandleGuild
    dsimp only
    rw [hDm, hDr]
    split
    · next h => exact absurd h (by decide)
    · split
      · simp
      · split
        · simp
        · simp
  · unfold wsHandleGroup
    dsimp only
    rw [hWm, hWr]
    split
    · next h => exact absurd h (by decide)
    · split
      · simp
      · split
        · simp
        · simp
  · unfold tgHandleGroup
    rw [hTm]
    split
    · next h => exact absurd h (by decide)
    · dsimp only
      split
      · simp
      · split
        · simp
        · simp

/-- Witness for `C7_amended`: concrete both-reply-and-mention messages on
each platform. -/
theorem C7_amended_witness :
    dcIsBotMentioned ⟨none, none, some 42, some "faqbot"⟩
      ⟨7, "Ana", "ana", "hola bot", false, some 1, 5, true, some 42, "prev"⟩ = true ∧
    wsIsBotMentioned (WsMessage.textBody
      ⟨some "111-222@g.us", "text", "@bot hola", some ⟨some "+100", "prev"⟩⟩) = true ∧
    tgIsBotMentioned ⟨"meshbot", some 99⟩ "@meshbot hola" [] (some ⟨some 99, "meshbot"⟩)
      = true ∧
    tgGroupInteractionLabel ⟨"meshbot", some 99⟩
      ⟨some 999, "group", "g", none, some 456, some "Ana", "@meshbot hola", [],
        some ⟨some 99, "meshbot"⟩⟩ = some "respuesta" ∧
    dcGuildInteractionLabel ⟨none, none, some 42, some "faqbot"⟩
      ⟨7, "Ana", "ana", "hola bot", false, some 1, 5, true, some 42, "prev"⟩
      = some "mención" := by
  have h := C7_amended ⟨none, none, some 42, some "faqbot"⟩
    ⟨7, "Ana", "ana", "hola bot", false, some 1, 5, true, some 42, "prev"⟩
    ⟨some "+100"⟩ ⟨some "111-222@g.us", "text", "@bot hola", some ⟨some "+100", "prev"⟩⟩
    ⟨"meshbot", some 99⟩
    ⟨some 999, "group", "g", none, some 456, some "Ana", "@meshbot hola", [],
      some ⟨some 99, "meshbot"⟩⟩
    ⟨some 99, "meshbot"⟩ "u" "g" "u" 999 456
    (by decide) (by decide) (by decide) (by decide) (by decide) rfl (by decide)
  exact ⟨by decide, by decide, by decide, h.2.2.1, h.1⟩

/-- C10, counterexample.  An empty-string record exists and is not decodable
as JSON, yet `get_context` returns the empty context without deleting it:
`if data:` is false for `""`, so the decode (and with it `clear_session`)
is never reached — the claim's "deletes every undecodable record" fails. -/
theorem C10_counterexample :
    Store.get ([(sessionKey "s1", ⟨RawValue.emptyStr, 100⟩)] : Store) (sessionKey "s1")
      = some ⟨RawValue.emptyStr, 100⟩ ∧
    getContext ([(sessionKey "s1", ⟨RawValue.emptyStr, 100⟩)] : Store) "s1"
      = ⟨[], [(sessionKey "s1", ⟨RawValue.emptyStr, 100⟩)]⟩ :=
  ⟨rfl, rfl⟩

/-- C10, amended.  For a non-empty stored record that raises
`JSONDecodeError`, `get_context` deletes the record (the corrupt history is
destroyed by the read) and returns the empty context; a record decoding to
a non-list JSON value is returned as empty context without deletion; and an
empty-string record is likewise returned as empty context without deletion
(Python's falsy check on the raw data short-circuits before decoding). -/
theorem C10_amended (s : Store) (sid : String) (t : Nat)
    (hc : Store.get s (sessionKey sid) = some ⟨RawValue.corrupt, t⟩)
    (s2 : Store) (sid2 : String) (t2 : Nat)
    (ho : Store.get s2 (sessionKey sid2) = some ⟨RawValue.jsonOther, t2⟩)
    (s3 : Store) (sid3 : String) (t3 : Nat)
    (he : Store.get s3 (sessionKey sid3) = some ⟨RawValue.emptyStr, t3⟩) :
    getContext s sid = ⟨[], Store.del s (sessionKey sid)⟩ ∧
    Store.get (getContext s sid).store (sessionKey sid) = none ∧
    getContext s2 sid2 = ⟨[], s2⟩ ∧
    getContext s3 sid3 = ⟨[], s3⟩ := by
  refine ⟨?_, ?_, ?_, ?_⟩
  · unfold getContext clearSession
    rw [hc]
  · unfold getContext clearSession
    rw [hc]
    exact Store.get_del s (sessionKey sid)
  · unfold getContext
    rw [ho]
  · unfold getContext
    rw [he]

/-- Witness for `C10_amended`: concrete one-record stores for each decode
outcome. -/
theorem C10_amended_witness :
    Store.get ([(sessionKey "c", ⟨RawValue.corrupt, 5⟩)] : Store) (sessionKey "c")
      = some ⟨RawValue.corrupt, 5⟩ ∧
    Store.get ([(sessionKey "o", ⟨RawValue.jsonOther, 5⟩)] : Store) (sessionKey "o")
      = some ⟨RawValue.jsonOther, 5⟩ ∧
    Store.get ([(sessionKey "e", ⟨RawValue.emptyStr, 5⟩)] : Store) (sessionKey "e")
      = some ⟨RawValue.emptyStr, 5⟩ ∧
    getContext ([(sessionKey "c", ⟨RawValue.corrupt, 5⟩)] : Store) "c"
      = ⟨[], Store.del ([(sessionKey "c", ⟨RawValue.corrupt, 5⟩)] : Store) (sessionKey "c")⟩ :=
  ⟨rfl, rfl, rfl,
    (C10_amended [(sessionKey "c", ⟨RawValue.corrupt, 5⟩)] "c" 5 rfl
      [(sessionKey "o", ⟨RawValue.jsonOther, 5⟩)] "o" 5 rfl
      [(sessionKey "e", ⟨RawValue.emptyStr, 5⟩)] "e" 5 rfl).1⟩
